import Mathlib

/-!
Verification model of the Homebox integration (marcboivin/homebox-haas).

The development shallowly embeds the two stateful components of the
repository:

* `src/auth_client.py` — the `HomeboxAuthClient` class: `authenticate`,
  `ensure_token_valid`, `api_request` (with its HTTP-401 re-authentication
  handling), and the domain operations `get_locations`, `create_location`,
  `get_items`, `update_item_location`, `list_webhooks`.
* `src/__init__.py` — `sync_locations` and
  `HomeboxDataUpdateCoordinator._async_update_data`.

Modelling conventions:

* JSON values are the inductive `Json` below; Python dicts are modelled as
  association lists in insertion order with distinct keys (lookup takes the
  first occurrence, matching dict semantics for the objects the code builds).
* Timestamps (`datetime.now()`, `token_expiry`, `last_sync_time`) are `Int`
  seconds; `timedelta(minutes=m)` is `m * 60` seconds.
* `datetime.fromisoformat` (after the `Z`-replacement) is modelled by the
  stand-in partial parser `parseIso := String.toInt?`: only the
  success/failure split and the resulting instant matter to the claims,
  never which concrete strings parse.
* Network interactions are oracles: one scripted login answer (`AuthResp`)
  per `authenticate()` call, and one scripted `ServerResp` per HTTP request
  a single `api_request` invocation (including its recursive 401 retries)
  issues.  An exhausted script behaves as a transport failure.
* Python exception flow is made explicit: each function returns the value
  the source returns, and error cases carry `HbError.authError` /
  `HbError.apiError` for `HomeboxAuthError` / `HomeboxApiError`.
-/

/-- JSON values as returned by `response.json()` in the source.  Objects are
association lists in insertion order. -/
inductive Json where
  | null
  | bool (b : Bool)
  | num (n : Int)
  | str (s : String)
  | list (xs : List Json)
  | obj (fields : List (String × Json))

/-- Dict lookup: first field with the given key (`result["k"]` / `"k" in result`). -/
def lookupField (k : String) : List (String × Json) → Option Json
  | [] => none
  | (k', v) :: rest => if k' = k then some v else lookupField k rest

/-- First list-valued field of an object, in insertion order; models the
`for key, value in result.items(): if isinstance(value, list)` scan of
`get_locations` / `get_items` (src/auth_client.py lines 236-240, 298-302). -/
def firstListField : List (String × Json) → Option (List Json)
  | [] => none
  | (_, v) :: rest =>
    match v with
    | Json.list xs => some xs
    | _ => firstListField rest

/-- Python `isinstance(v, list)`. -/
def Json.isList : Json → Bool
  | .list _ => true
  | _ => false

/-- Python `isinstance(v, dict)`. -/
def Json.isObj : Json → Bool
  | .obj _ => true
  | _ => false

/-- Python `isinstance(v, str)`. -/
def Json.isStr : Json → Bool
  | .str _ => true
  | _ => false

/-- Python truthiness of a JSON value (`not v` is the negation). -/
def jsonFalsy : Json → Bool
  | .null => true
  | .bool b => !b
  | .num n => n == 0
  | .str s => s.isEmpty
  | .list xs => xs.isEmpty
  | .obj fs => fs.isEmpty

/-- Python truthiness of an optional JSON value (`None` is falsy). -/
def optJsonFalsy : Option Json → Bool
  | none => true
  | some v => jsonFalsy v

/-- Values for which the debug slice `v[:10]` (src/auth_client.py lines 84, 87)
succeeds instead of raising `TypeError`: strings and lists. -/
def sliceable : Json → Bool
  | .str _ => true
  | .list _ => true
  | _ => false

/-- Whether the character list `n` occurs as a prefix of `h`. -/
def charsPrefix : List Char → List Char → Bool
  | [], _ => true
  | _ :: _, [] => false
  | a :: as, b :: bs => a = b && charsPrefix as bs

/-- Whether the character list `n` occurs contiguously inside `h`. -/
def charsInfix (n : List Char) : List Char → Bool
  | [] => n.isEmpty
  | c :: rest => charsPrefix n (c :: rest) || charsInfix n rest

/-- Python substring test `n in h` for strings. -/
def strContains (h n : String) : Bool := charsInfix n.toList h.toList

/-- Python membership test `"expires" in xs` for a list value: true when some
element equals the string. -/
def hasStrExpires (xs : List Json) : Bool :=
  xs.any (fun j => match j with | Json.str s => s = "expires" | _ => false)

/-- Mutable fields of `HomeboxAuthClient` (src/auth_client.py lines 40-47).
`refreshInterval` is configuration in minutes, set at construction and never
mutated.  `authToken` is a raw JSON value: the source assigns whatever the
login response carried in its token field. -/
structure ClientState where
  authToken : Option Json
  tokenExpiry : Option Int
  lastRefresh : Option Int
  authenticated : Bool
  refreshInterval : Int

/-- State of a freshly constructed client (src/auth_client.py lines 43-47). -/
def initState (interval : Int) : ClientState :=
  { authToken := none, tokenExpiry := none, lastRefresh := none,
    authenticated := false, refreshInterval := interval }

/-- One scripted answer to the `POST /api/v1/users/login` request issued by
`authenticate()`.  `failure` covers a transport error, a non-success status
(`raise_for_status`), or an unparseable/non-object body: in the source every
one of those paths sets `authenticated = False` and returns `False` with the
token and expiry untouched.  `success fields` is a parsed JSON object body. -/
inductive AuthResp where
  | failure
  | success (fields : List (String × Json))

/-- Stand-in for `datetime.fromisoformat` after the `Z` normalization: an
abstract partial parser from strings to instants.  Only success versus
failure and the parsed instant are relevant anywhere in the model. -/
def parseIso (s : String) : Option Int := s.toInt?

/-- Result of the token-expiry section of `authenticate()`
(src/auth_client.py lines 98-105): either the expiry instant to store, or
`raise`, meaning the section raised (non-string `expires` value, parse
failure, or a `TypeError` from the `in` test on a non-iterable `data`). -/
inductive ExpRes where
  | ok (e : Int)
  | raise

/-- Token-expiry computation of `authenticate()` (src/auth_client.py lines
98-105).  Mirrors `if "expires" in auth_data: ... elif "data" in auth_data
and "expires" in auth_data["data"]: ... else: now + refresh_interval`.
The `some` non-object cases for `data` model Python `in` semantics: a
substring test on strings, element equality on lists, and `TypeError`
(hence the surrounding handler) on non-iterables. -/
def expiresResult (fields : List (String × Json)) (now interval : Int) : ExpRes :=
  match lookupField "expires" fields with
  | some (Json.str e) =>
    match parseIso e with
    | some t => ExpRes.ok t
    | none => ExpRes.raise
  | some _ => ExpRes.raise
  | none =>
    match lookupField "data" fields with
    | some (Json.obj d) =>
      match lookupField "expires" d with
      | some (Json.str e) =>
        match parseIso e with
        | some t => ExpRes.ok t
        | none => ExpRes.raise
      | some _ => ExpRes.raise
      | none => ExpRes.ok (now + interval * 60)
    | some (Json.str sdat) =>
      if strContains sdat "expires" then ExpRes.raise else ExpRes.ok (now + interval * 60)
    | some (Json.list xs) =>
      if hasStrExpires xs then ExpRes.raise else ExpRes.ok (now + interval * 60)
    | some _ => ExpRes.raise
    | none => ExpRes.ok (now + interval * 60)

/-- Token extraction of `authenticate()` (src/auth_client.py lines 82-91):
the top-level `token` field, else the `token` field of a dict `data` field.
When `data` is present but not a dict, every Python path (a `TypeError`
from indexing, or the membership test failing) ends with `authenticated =
False` and `False` returned, exactly as when no token is found, so those
cases map to `none` here. -/
def extractToken (fields : List (String × Json)) : Option Json :=
  match lookupField "token" fields with
  | some v => some v
  | none =>
    match lookupField "data" fields with
    | some (Json.obj d) => lookupField "token" d
    | _ => none

/-- The `authenticate` method (src/auth_client.py lines 49-120) as a state
transition on one scripted login answer.  Returns the boolean result and the
client state after the call.

Token extraction follows lines 82-96: top-level `token` field first, then
`data.token`; every failing path (missing token, `TypeError` from indexing a
non-dict `data`, falsy token, non-sliceable token breaking the debug slice,
expiry-section raise) ends in the `except` handlers of lines 113-120, which
set `authenticated = False` and return `False`. -/
def authenticate (s : ClientState) (now : Int) (r : AuthResp) : Bool × ClientState :=
  match r with
  | AuthResp.failure => (false, { s with authenticated := false })
  | AuthResp.success fields =>
    match extractToken fields with
    | none => (false, { s with authenticated := false })
    | some v =>
      if !sliceable v then
        (false, { s with authToken := some v, authenticated := false })
      else if jsonFalsy v then
        (false, { s with authToken := some v, authenticated := false })
      else
        match expiresResult fields now s.refreshInterval with
        | ExpRes.ok e =>
          (true, { s with authToken := some v, tokenExpiry := some e,
                          lastRefresh := some now, authenticated := true })
        | ExpRes.raise =>
          (false, { s with authToken := some v, authenticated := false })

/-- Refresh condition of `ensure_token_valid` (src/auth_client.py lines
125-130): `not authenticated or not auth_token or not token_expiry or
now >= token_expiry - 5 minutes`. -/
def needsRefresh (s : ClientState) (now : Int) : Bool :=
  !s.authenticated || optJsonFalsy s.authToken ||
    (match s.tokenExpiry with
     | none => true
     | some e => decide (now ≥ e - 300))

/-- Result of one `ensure_token_valid` call: the returned boolean, the state
after the call, the unconsumed login script, and whether `authenticate()`
was called. -/
structure EtvRes where
  ok : Bool
  state : ClientState
  rest : List AuthResp
  called : Bool

/-- The `ensure_token_valid` method (src/auth_client.py lines 122-133).  When
the refresh condition holds it makes exactly one `authenticate()` call,
consuming the next scripted login answer (an empty script is a transport
failure), and returns that call's result; otherwise it returns `true`
without any call. -/
def ensureTokenValid (s : ClientState) (now : Int) (auths : List AuthResp) : EtvRes :=
  if needsRefresh s now then
    let (b, s') := authenticate s now (auths.headD AuthResp.failure)
    { ok := b, state := s', rest := auths.tail, called := true }
  else
    { ok := true, state := s, rest := auths, called := false }

/-- The two exception classes of src/auth_client.py (lines 399-406):
`HomeboxAuthError` and `HomeboxApiError`. -/
inductive HbError where
  | authError
  | apiError
deriving DecidableEq

/-- One scripted answer to an HTTP request issued inside `api_request`.
`http401` is a 401 status; `okJson` a success body parsing as JSON;
`okText` a success body that is not JSON (`ContentTypeError`, returned as
raw text); `httpErr` any other error status (`raise_for_status`, an
`aiohttp.ClientError`); `netErr` a transport failure during the request. -/
inductive ServerResp where
  | http401
  | okJson (v : Json)
  | okText (t : String)
  | httpErr
  | netErr

/-- Value returned by a successful `api_request`: the parsed JSON body, or
the raw text when the body is not valid JSON (src/auth_client.py 203-208). -/
inductive ApiValue where
  | json (v : Json)
  | text (t : String)

/-- Network script for one client-method call: login answers consumed by
`ensure_token_valid` and by 401 re-authentication, and server answers, one
per HTTP request sent. -/
structure CallOracle where
  auth : List AuthResp
  resps : List ServerResp

/-- CallOracle whose every interaction is a transport failure. -/
def emptyCallOracle : CallOracle := { auth := [], resps := [] }

/-- Observable result of one `api_request` invocation: the returned value or
raised error, the client state afterwards, the number of request retries
performed (recursive `api_request` calls at line 196), and the number of
401-triggered re-authentication attempts (line 193). -/
structure ApiRes where
  outcome : Except HbError ApiValue
  state : ClientState
  retries : Nat
  reauths : Nat

/-- Exception propagation from the recursive retry call at
src/auth_client.py line 196: the recursive `api_request` call sits inside
the callers `try`, so any `HomeboxAuthError` or `HomeboxApiError` it raises
is caught by the callers `except Exception` (line 213) and re-raised as
`HomeboxApiError`; a returned value passes through unchanged. -/
def wrapNested : Except HbError ApiValue → Except HbError ApiValue
  | Except.ok v => Except.ok v
  | Except.error _ => Except.error HbError.apiError

/-- The `api_request` method (src/auth_client.py lines 135-215).  Each
invocation first runs `ensure_token_valid` (line 158; `false` raises
`HomeboxAuthError` outside the `try`), then checks the token (line 165),
then consumes the next scripted server answer (none left = transport
failure, hence `HomeboxApiError`).  On a 401 it consumes one login answer
for the re-authentication at line 193: on success it retries via the
recursive call at line 196 (whose raised errors `wrapNested` converts); on
failure the `HomeboxAuthError` raised at line 198 is itself inside the
`try`, so the handler at line 213 converts it to `HomeboxApiError`. -/
def apiRequestGo (now : Int) : ClientState → List AuthResp → List ServerResp → ApiRes
  | s, auths, resps =>
    let et := ensureTokenValid s now auths
    if et.ok = false then
      { outcome := Except.error HbError.authError, state := et.state, retries := 0, reauths := 0 }
    else if optJsonFalsy et.state.authToken then
      { outcome := Except.error HbError.authError, state := et.state, retries := 0, reauths := 0 }
    else
      match resps with
      | [] =>
        { outcome := Except.error HbError.apiError, state := et.state, retries := 0, reauths := 0 }
      | ServerResp.okJson v :: _ =>
        { outcome := Except.ok (ApiValue.json v), state := et.state, retries := 0, reauths := 0 }
      | ServerResp.okText t :: _ =>
        { outcome := Except.ok (ApiValue.text t), state := et.state, retries := 0, reauths := 0 }
      | ServerResp.httpErr :: _ =>
        { outcome := Except.error HbError.apiError, state := et.state, retries := 0, reauths := 0 }
      | ServerResp.netErr :: _ =>
        { outcome := Except.error HbError.apiError, state := et.state, retries := 0, reauths := 0 }
      | ServerResp.http401 :: rest =>
        let (ab, s2) := authenticate et.state now (et.rest.headD AuthResp.failure)
        if ab then
          let r := apiRequestGo now s2 et.rest.tail rest
          { outcome := wrapNested r.outcome, state := r.state,
            retries := r.retries + 1, reauths := r.reauths + 1 }
        else
          { outcome := Except.error HbError.apiError, state := s2, retries := 0, reauths := 1 }

/-- Convenience wrapper running `api_request` on a `CallOracle`. -/
def apiRequest (s : ClientState) (now : Int) (o : CallOracle) : ApiRes :=
  apiRequestGo now s o.auth o.resps

/-- Response normalization of `get_items` (src/auth_client.py lines
285-308): bare list, else `items` field holding a list, else `data` field
holding a list, else the first list-valued field, else empty; a non-JSON
text response is neither a list nor a dict and also yields empty. -/
def normalizeItems : ApiValue → List Json
  | ApiValue.json (Json.list xs) => xs
  | ApiValue.json (Json.obj fs) =>
    match lookupField "items" fs with
    | some (Json.list xs) => xs
    | _ =>
      match lookupField "data" fs with
      | some (Json.list xs) => xs
      | _ => (firstListField fs).getD []
  | _ => []

/-- Response normalization of `get_locations` (src/auth_client.py lines
227-246): bare list, else `data` field holding a list, else the first
list-valued field, else empty. -/
def normalizeLocations : ApiValue → List Json
  | ApiValue.json (Json.list xs) => xs
  | ApiValue.json (Json.obj fs) =>
    match lookupField "data" fs with
    | some (Json.list xs) => xs
    | _ => (firstListField fs).getD []
  | _ => []

/-- Response normalization of `list_webhooks` (src/auth_client.py lines
382-393): bare list, else a present `data` field that is a list; in every
other shape (including `data` present but not a list, and objects with list
values under other keys) the result is empty.  Unlike `get_locations` and
`get_items` there is no first-list-valued-field scan. -/
def normalizeWebhooks : ApiValue → List Json
  | ApiValue.json (Json.list xs) => xs
  | ApiValue.json (Json.obj fs) =>
    match lookupField "data" fs with
    | some (Json.list xs) => xs
    | some _ => []
    | none => []
  | _ => []

/-- The `get_items` method (src/auth_client.py lines 269-311): the whole
body is inside `try ... except Exception: return []`, so an `api_request`
error of either kind degrades to an empty list.  The optional label filter
only selects query parameters; the response is given by the oracle. -/
def getItems (s : ClientState) (now : Int) (o : CallOracle) : List Json × ClientState :=
  let r := apiRequest s now o
  match r.outcome with
  | Except.ok v => (normalizeItems v, r.state)
  | Except.error _ => ([], r.state)

/-- The `get_locations` method (src/auth_client.py lines 221-249), with the
same degrade-to-empty `except` wrapper. -/
def getLocations (s : ClientState) (now : Int) (o : CallOracle) : List Json × ClientState :=
  let r := apiRequest s now o
  match r.outcome with
  | Except.ok v => (normalizeLocations v, r.state)
  | Except.error _ => ([], r.state)

/-- The `list_webhooks` method (src/auth_client.py lines 372-396), with the
same degrade-to-empty `except` wrapper. -/
def listWebhooks (s : ClientState) (now : Int) (o : CallOracle) : List Json × ClientState :=
  let r := apiRequest s now o
  match r.outcome with
  | Except.ok v => (normalizeWebhooks v, r.state)
  | Except.error _ => ([], r.state)

/-- The `create_location` method (src/auth_client.py lines 251-267): posts
`{"name": name}` and returns a success boolean, swallowing every error. -/
def createLocation (s : ClientState) (now : Int) (nm : String) (o : CallOracle) :
    Bool × ClientState :=
  let r := apiRequest s now o
  match r.outcome with
  | Except.ok _ => (true, r.state)
  | Except.error _ => (false, r.state)

/-- Primary PATCH body of `update_item_location` (src/auth_client.py line 326). -/
def primaryBody (locId : String) : Json := Json.obj [("location_id", Json.str locId)]

/-- Fallback PATCH body of `update_item_location` (src/auth_client.py line 336). -/
def fallbackBody (locId : String) : Json :=
  Json.obj [("location", Json.obj [("id", Json.str locId)])]

/-- The `update_item_location` method (src/auth_client.py lines 313-343).
Returns the boolean result, the final client state, and the list of PATCH
bodies sent.  The inner `except HomeboxApiError` (line 333) triggers the
single fallback attempt only for `HomeboxApiError`; a `HomeboxAuthError`
from the first call and any error from the second are caught by the outer
`except Exception` (line 341), which returns `False`.  The item id only
selects the URL; responses come from the oracles. -/
def updateItemLocation (s : ClientState) (now : Int) (itemId locId : String)
    (o1 o2 : CallOracle) : Bool × ClientState × List Json :=
  let _ := itemId
  let r1 := apiRequest s now o1
  match r1.outcome with
  | Except.ok _ => (true, r1.state, [primaryBody locId])
  | Except.error HbError.apiError =>
    let r2 := apiRequest r1.state now o2
    match r2.outcome with
    | Except.ok _ => (true, r2.state, [primaryBody locId, fallbackBody locId])
    | Except.error _ => (false, r2.state, [primaryBody locId, fallbackBody locId])
  | Except.error HbError.authError => (false, r1.state, [primaryBody locId])

/-- Value of `loc.get("name")` matched against a host area name `a`
(src/__init__.py line 234): true exactly when the location is an object
whose `name` field is the string `a`; Python string equality against a
missing (`None`) or non-string name value is false. -/
def locNameMatches (a : String) : Json → Bool
  | Json.obj fs =>
    match lookupField "name" fs with
    | some (Json.str s) => s = a
    | _ => false
  | _ => false

/-- Reconciliation core of `sync_locations` (src/__init__.py lines 230-246):
the set of host-platform area names minus the set of server location names,
each member of which gets exactly one `create_location` call.  Iterating a
Python set visits each name once. -/
def syncCreates (haAreas : Finset String) (locs : List Json) : Finset String :=
  haAreas.filter (fun a => locs.any (locNameMatches a) = false)

/-- Sequence of `create_location` calls of the sync loop (src/__init__.py
lines 246-247), threading client state; results are ignored by the loop. -/
def createAll (now : Int) : ClientState → List String → List CallOracle → ClientState
  | s, [], _ => s
  | s, n :: ns, os =>
    createAll now (createLocation s now n (os.headD emptyCallOracle)).2 ns os.tail

/-- The `sync_locations` function (src/__init__.py lines 219-254).  The whole
body is inside `try ... except Exception`, which logs and returns, so the
function never raises.  It fetches server locations (degrading to empty on
failure), and if every returned location is a dict it creates one location
per missing name; a non-dict location makes `loc.get` raise inside the set
comprehension at line 234, reaching the handler before any creation.
Returns the client state afterwards and the set of names created.  Python
set iteration order is unspecified; the model iterates in sorted order. -/
def syncLocations (s : ClientState) (now : Int) (haAreas : Finset String)
    (locO : CallOracle) (crO : List CallOracle) : ClientState × Finset String :=
  let gl := getLocations s now locO
  if gl.1.all Json.isObj then
    let created := syncCreates haAreas gl.1
    (createAll now gl.2 (created.sort (· ≤ ·)) crO, created)
  else
    (gl.2, ∅)

/-- Outcome of one coordinator refresh pass
(`HomeboxDataUpdateCoordinator._async_update_data`, src/__init__.py lines
279-318): a returned snapshot (whose `last_update` timestamp field is
omitted here as no claim mentions it), a raised `UpdateFailed`, or a raised
`ConfigEntryAuthFailed`. -/
inductive CoordResult where
  | snapshot (items : List Json) (locations : List Json)
  | updateFailed
  | authFailed

/-- Initial value of the coordinator field `last_sync_time`
(src/__init__.py line 270). -/
def initLastSyncTime : Option Int := none

/-- Sync-gating condition of the refresh pass (src/__init__.py lines
288-289): `not self.last_sync_time or
(current_time - self.last_sync_time).total_seconds() > 86400`. -/
def syncDue (lastSync : Option Int) (now : Int) : Bool :=
  match lastSync with
  | none => true
  | some t => decide (86400 < now - t)

/-- Network scripts consumed by one refresh pass, in program order. -/
structure PassOracles where
  etvAuth : List AuthResp
  syncLoc : CallOracle
  syncCreate : List CallOracle
  items : CallOracle
  locations : CallOracle

/-- PassOracles whose every interaction is a transport failure. -/
def emptyPassOracles : PassOracles :=
  { etvAuth := [], syncLoc := emptyCallOracle, syncCreate := [],
    items := emptyCallOracle, locations := emptyCallOracle }

/-- Observable result of one refresh pass. -/
structure PassOut where
  result : CoordResult
  lastSync : Option Int
  state : ClientState
  syncRan : Bool

/-- One refresh pass of `_async_update_data` (src/__init__.py lines
279-318).  If `ensure_token_valid` returns `False` the pass raises
`UpdateFailed` (line 284).  Otherwise, when the sync gate is due it runs
`sync_locations` (which never raises) and then unconditionally sets
`last_sync_time := now` (line 292).  It then fetches items and locations
through the degrade-to-empty client methods and returns the snapshot.  The
handlers at lines 313-318 (`HomeboxAuthError` to `ConfigEntryAuthFailed`,
`HomeboxApiError` to `UpdateFailed`) would convert raised client errors,
but every client method called here catches its own exceptions and returns
a value, so in this model the snapshot branch is total. -/
def coordPass (s : ClientState) (now : Int) (lastSync : Option Int)
    (haAreas : Finset String) (o : PassOracles) : PassOut :=
  let et := ensureTokenValid s now o.etvAuth
  if et.ok = false then
    { result := CoordResult.updateFailed, lastSync := lastSync,
      state := et.state, syncRan := false }
  else
    let due := syncDue lastSync now
    let s2 := if due then (syncLocations et.state now haAreas o.syncLoc o.syncCreate).1
              else et.state
    let ls2 := if due then some now else lastSync
    let ir := getItems s2 now o.items
    let lr := getLocations ir.2 now o.locations
    { result := CoordResult.snapshot ir.1 lr.1, lastSync := ls2,
      state := lr.2, syncRan := due }

/-- Client state with a valid, far-from-expiry token, as left by a recent
successful authentication: used as the concrete starting state of the
counterexamples and witnesses. -/
def freshS : ClientState :=
  { authToken := some (Json.str "tok"), tokenExpiry := some 1000000,
    lastRefresh := some 0, authenticated := true, refreshInterval := 60 }

/-- Client state that is authenticated with a truthy token but has no
stored expiry. -/
def noExpiryS : ClientState :=
  { authToken := some (Json.str "t"), tokenExpiry := none, lastRefresh := none,
    authenticated := true, refreshInterval := 60 }

/-- Login answer carrying a token and no expiry, so the client falls back to
the `now + refresh_interval` default expiry (src/auth_client.py line 105). -/
def goodAuthResp : AuthResp := AuthResp.success [("token", Json.str "t2")]

/-- Login answer whose `token` field is a non-empty JSON list rather than a
string. -/
def listTokenAuthResp : AuthResp :=
  AuthResp.success [("token", Json.list [Json.str "x"])]

/-- Server location object `{"name": a}` as created by `create_location`. -/
def mkNameLoc (a : String) : Json := Json.obj [("name", Json.str a)]

/-- Host areas `{A, B, C}` of the location-sync example. -/
def areasABC : Finset String := {"A", "B", "C"}

/-- Client states reachable from construction through the state-mutating
operations of the integration: `authenticate`, `ensure_token_valid`,
`api_request` (hence every domain operation, whose state is the state of
its inner `api_request`), and a coordinator refresh pass.  No other code in
the repository writes the session fields. -/
inductive Reachable : ClientState → Prop where
  | init (interval : Int) : Reachable (initState interval)
  | auth (s : ClientState) (now : Int) (r : AuthResp) :
      Reachable s → Reachable (authenticate s now r).2
  | etv (s : ClientState) (now : Int) (auths : List AuthResp) :
      Reachable s → Reachable (ensureTokenValid s now auths).state
  | api (s : ClientState) (now : Int) (auths : List AuthResp) (resps : List ServerResp) :
      Reachable s → Reachable (apiRequestGo now s auths resps).state
  | pass (s : ClientState) (now : Int) (ls : Option Int) (A : Finset String)
      (o : PassOracles) : Reachable s → Reachable (coordPass s now ls A o).state

/-- Session invariant: an authenticated state holds a token and an expiry. -/
def StateInv (s : ClientState) : Prop :=
  s.authenticated = true → s.authToken ≠ none ∧ s.tokenExpiry ≠ none

/-- Characterization of the refresh condition: `ensure_token_valid` finds the
token usable exactly when the client is authenticated, the token is truthy,
and an expiry is present with more than 5 minutes of margin. -/
theorem needsRefresh_false_iff (s : ClientState) (now : Int) :
    needsRefresh s now = false ↔
      s.authenticated = true ∧ optJsonFalsy s.authToken = false ∧
        ∃ e, s.tokenExpiry = some e ∧ now < e - 300 := by
  unfold needsRefresh
  cases h : s.tokenExpiry with
  | none => simp [h]
  | some e =>
    simp only [h, Bool.or_eq_false_iff, Bool.not_eq_false', decide_eq_false_iff_not, not_le,
      and_assoc, Option.some.injEq]
    constructor
    · rintro ⟨ha, ht, he⟩; exact ⟨ha, ht, e, rfl, by omega⟩
    · rintro ⟨ha, ht, e', he', hlt⟩; cases he'; exact ⟨ha, ht, by omega⟩

/-- A usable token makes `ensure_token_valid` a no-op returning true. -/
theorem ensureTokenValid_fresh (s : ClientState) (now : Int) (auths : List AuthResp)
    (h : needsRefresh s now = false) :
    ensureTokenValid s now auths = ⟨true, s, auths, false⟩ := by
  unfold ensureTokenValid
  simp [h]

/-- With a usable token, an `api_request` whose first server answer is a JSON
success returns that body directly. -/
theorem apiRequest_fresh_okJson (s : ClientState) (now : Int) (auths : List AuthResp)
    (v : Json) (rest : List ServerResp) (h : needsRefresh s now = false) :
    apiRequestGo now s auths (ServerResp.okJson v :: rest) =
      { outcome := Except.ok (ApiValue.json v), state := s, retries := 0, reauths := 0 } := by
  have htok : optJsonFalsy s.authToken = false := ((needsRefresh_false_iff s now).mp h).2.1
  unfold apiRequestGo
  rw [ensureTokenValid_fresh s now auths h]
  simp [htok]

/-- With a usable token, an `api_request` hitting a transport failure raises
`HomeboxApiError`. -/
theorem apiRequest_fresh_netErr (s : ClientState) (now : Int) (auths : List AuthResp)
    (rest : List ServerResp) (h : needsRefresh s now = false) :
    apiRequestGo now s auths (ServerResp.netErr :: rest) =
      { outcome := Except.error HbError.apiError, state := s, retries := 0, reauths := 0 } := by
  have htok : optJsonFalsy s.authToken = false := ((needsRefresh_false_iff s now).mp h).2.1
  unfold apiRequestGo
  rw [ensureTokenValid_fresh s now auths h]
  simp [htok]

/-- With a usable token, an `api_request` whose successful response body is
not JSON returns the raw text. -/
theorem apiRequest_fresh_okText (s : ClientState) (now : Int) (auths : List AuthResp)
    (t : String) (rest : List ServerResp) (h : needsRefresh s now = false) :
    apiRequestGo now s auths (ServerResp.okText t :: rest) =
      { outcome := Except.ok (ApiValue.text t), state := s, retries := 0, reauths := 0 } := by
  have htok : optJsonFalsy s.authToken = false := ((needsRefresh_false_iff s now).mp h).2.1
  unfold apiRequestGo
  rw [ensureTokenValid_fresh s now auths h]
  simp [htok]

/-- Dict lookup never produces a list value in an object none of whose
fields is a list. -/
theorem lookupField_of_no_list :
    ∀ (fs : List (String × Json)), (∀ kv ∈ fs, kv.2.isList = false) →
      ∀ (k : String) (xs : List Json), lookupField k fs ≠ some (Json.list xs)
  | [], _, k, xs => by simp [lookupField]
  | (k', v) :: rest, h, k, xs => by
    have hv := h (k', v) (by simp)
    have hrest := lookupField_of_no_list rest (fun kv hkv => h kv (by simp [hkv])) k xs
    simp only [lookupField]
    split
    · intro hc
      cases hc
      simp [Json.isList] at hv
    · exact hrest

/-- The first-list-valued-field scan finds nothing in an object none of
whose fields is a list. -/
theorem firstListField_of_no_list :
    ∀ (fs : List (String × Json)), (∀ kv ∈ fs, kv.2.isList = false) →
      firstListField fs = none
  | [], _ => rfl
  | (k', v) :: rest, h => by
    have hv := h (k', v) (by simp)
    have hrest := firstListField_of_no_list rest (fun kv hkv => h kv (by simp [hkv]))
    cases v <;> simp_all [firstListField, Json.isList]

/-- The `get_items` normalization yields the empty list on an object with no
list-valued field. -/
theorem normalizeItems_no_list {fs : List (String × Json)}
    (h : ∀ kv ∈ fs, kv.2.isList = false) :
    normalizeItems (ApiValue.json (Json.obj fs)) = [] := by
  have hi := lookupField_of_no_list fs h "items"
  have hd := lookupField_of_no_list fs h "data"
  have hf := firstListField_of_no_list fs h
  simp only [normalizeItems]
  rcases hit : lookupField "items" fs with _ | vi
  · rcases hdt : lookupField "data" fs with _ | vd
    · simp [hit, hdt, hf]
    · cases vd
      case list xs => exact absurd hdt (hd xs)
      all_goals simp [hit, hdt, hf]
  · cases vi
    case list xs => exact absurd hit (hi xs)
    all_goals
      rcases hdt : lookupField "data" fs with _ | vd
      · simp [hit, hdt, hf]
      · cases vd
        case list xs => exact absurd hdt (hd xs)
        all_goals simp [hit, hdt, hf]

/-- With a usable token, `get_items` on a JSON success reduces to the
normalization of the body. -/
theorem getItems_fresh_okJson (s : ClientState) (now : Int) (au : List AuthResp)
    (v : Json) (h : needsRefresh s now = false) :
    (getItems s now ⟨au, [ServerResp.okJson v]⟩).1 = normalizeItems (ApiValue.json v) := by
  unfold getItems apiRequest
  rw [apiRequest_fresh_okJson s now au v [] h]

/-- With a usable token, `get_locations` on a JSON success reduces to the
normalization of the body. -/
theorem getLocations_fresh_okJson (s : ClientState) (now : Int) (au : List AuthResp)
    (v : Json) (h : needsRefresh s now = false) :
    (getLocations s now ⟨au, [ServerResp.okJson v]⟩).1 = normalizeLocations (ApiValue.json v) := by
  unfold getLocations apiRequest
  rw [apiRequest_fresh_okJson s now au v [] h]

/-- With a usable token, `list_webhooks` on a JSON success reduces to the
normalization of the body. -/
theorem listWebhooks_fresh_okJson (s : ClientState) (now : Int) (au : List AuthResp)
    (v : Json) (h : needsRefresh s now = false) :
    (listWebhooks s now ⟨au, [ServerResp.okJson v]⟩).1 = normalizeWebhooks (ApiValue.json v) := by
  unfold listWebhooks apiRequest
  rw [apiRequest_fresh_okJson s now au v [] h]

/-- C6: for every list L, `get_items` returns exactly L whether the server
response is the bare list L, the object with L under `items`, or the object
with L under `data`; and a dict response none of whose fields is a list
(which covers every dict with no list anywhere, at any depth) yields the
empty list with no error — the model function is total, mirroring the
`except Exception: return []` wrapper. -/
theorem C6_get_items_shape_tolerance : ∀ (s : ClientState) (now : Int)
    (au : List AuthResp) (L : List Json) (fs : List (String × Json)),
    needsRefresh s now = false →
    ((getItems s now ⟨au, [ServerResp.okJson (Json.list L)]⟩).1 = L ∧
     (getItems s now ⟨au, [ServerResp.okJson (Json.obj [("items", Json.list L)])]⟩).1 = L ∧
     (getItems s now ⟨au, [ServerResp.okJson (Json.obj [("data", Json.list L)])]⟩).1 = L ∧
     ((∀ kv ∈ fs, kv.2.isList = false) →
       (getItems s now ⟨au, [ServerResp.okJson (Json.obj fs)]⟩).1 = [])) := by
  intro s now au L fs h
  refine ⟨?_, ?_, ?_, fun hfs => ?_⟩
  · rw [getItems_fresh_okJson s now au _ h]; rfl
  · rw [getItems_fresh_okJson s now au _ h]; rfl
  · rw [getItems_fresh_okJson s now au _ h]; rfl
  · rw [getItems_fresh_okJson s now au _ h]
    exact normalizeItems_no_list hfs

/-- Witness for C6 at concrete inputs, including the spec's
`{"unexpected": "shape"}` example. -/
theorem C6_get_items_shape_tolerance_witness :
    (getItems freshS 0 ⟨[], [ServerResp.okJson (Json.list [Json.num 7])]⟩).1 = [Json.num 7] ∧
    (getItems freshS 0
      ⟨[], [ServerResp.okJson (Json.obj [("items", Json.list [Json.num 7])])]⟩).1 = [Json.num 7] ∧
    (getItems freshS 0
      ⟨[], [ServerResp.okJson (Json.obj [("data", Json.list [Json.num 7])])]⟩).1 = [Json.num 7] ∧
    (getItems freshS 0
      ⟨[], [ServerResp.okJson (Json.obj [("unexpected", Json.str "shape")])]⟩).1 = [] := by
  have h := C6_get_items_shape_tolerance freshS 0 [] [Json.num 7]
    [("unexpected", Json.str "shape")] rfl
  exact ⟨h.1, h.2.1, h.2.2.1, h.2.2.2 (by simp [Json.isList])⟩

/-- C5 counterexample: on the object response with the list under a
`notifiers` field, `get_locations` finds the list through its
first-list-valued-field scan but `list_webhooks` returns the empty list —
the two do not apply the same normalization, contradicting the claim. -/
theorem C5_counterexample :
    (listWebhooks freshS 0
      ⟨[], [ServerResp.okJson (Json.obj [("notifiers", Json.list [Json.null])])]⟩).1 = [] ∧
    (getLocations freshS 0
      ⟨[], [ServerResp.okJson (Json.obj [("notifiers", Json.list [Json.null])])]⟩).1
      = [Json.null] := ⟨rfl, rfl⟩

/-- C5 amended: `list_webhooks` returns the bare list, or the list under the
`data` field; when `data` is present but not a list, when `data` is absent,
when the response is not a list or object, or when the request fails, it
returns the empty list without raising.  Unlike `get_locations` it performs
no scan of the other object fields for a list value. -/
theorem C5_list_webhooks_normalization : ∀ (s : ClientState) (now : Int)
    (au : List AuthResp) (xs : List Json) (fs : List (String × Json)) (t : String),
    needsRefresh s now = false →
    ((listWebhooks s now ⟨au, [ServerResp.okJson (Json.list xs)]⟩).1 = xs ∧
     (lookupField "data" fs = some (Json.list xs) →
       (listWebhooks s now ⟨au, [ServerResp.okJson (Json.obj fs)]⟩).1 = xs) ∧
     (∀ v, lookupField "data" fs = some v → v.isList = false →
       (listWebhooks s now ⟨au, [ServerResp.okJson (Json.obj fs)]⟩).1 = []) ∧
     (lookupField "data" fs = none →
       (listWebhooks s now ⟨au, [ServerResp.okJson (Json.obj fs)]⟩).1 = []) ∧
     (listWebhooks s now ⟨au, [ServerResp.netErr]⟩).1 = [] ∧
     (listWebhooks s now ⟨au, [ServerResp.okText t]⟩).1 = []) := by
  intro s now au xs fs t h
  refine ⟨?_, fun hdt => ?_, fun v hdt hvl => ?_, fun hdt => ?_, ?_, ?_⟩
  · rw [listWebhooks_fresh_okJson s now au _ h]; rfl
  · rw [listWebhooks_fresh_okJson s now au _ h]
    simp [normalizeWebhooks, hdt]
  · rw [listWebhooks_fresh_okJson s now au _ h]
    cases v
    case list ys => simp [Json.isList] at hvl
    all_goals simp [normalizeWebhooks, hdt]
  · rw [listWebhooks_fresh_okJson s now au _ h]
    simp [normalizeWebhooks, hdt]
  · unfold listWebhooks apiRequest
    rw [apiRequest_fresh_netErr s now au [] h]
  · unfold listWebhooks apiRequest
    rw [apiRequest_fresh_okText s now au t [] h]
    rfl

/-- Witness for the amended C5 at concrete inputs. -/
theorem C5_list_webhooks_normalization_witness :
    (listWebhooks freshS 0 ⟨[], [ServerResp.okJson (Json.list [Json.null])]⟩).1 = [Json.null] ∧
    (listWebhooks freshS 0
      ⟨[], [ServerResp.okJson (Json.obj [("data", Json.list [Json.null])])]⟩).1 = [Json.null] ∧
    (listWebhooks freshS 0 ⟨[], [ServerResp.netErr]⟩).1 = [] := by
  have h := C5_list_webhooks_normalization freshS 0 [] [Json.null]
    [("data", Json.list [Json.null])] "x" rfl
  exact ⟨h.1, h.2.1 rfl, h.2.2.2.2.1⟩

/-- C9: `update_item_location` first sends the `location_id` body; exactly
when that primary attempt fails with `HomeboxApiError` the single alternate
`location.id` body is sent, and success is then the fallback's success; a
primary success finishes with `true` after one request and a primary
`HomeboxAuthError` finishes with `false` after one request.  The model
function is total, mirroring that the outer `except Exception` converts
every error into a boolean return. -/
theorem C9_update_item_location : ∀ (s : ClientState) (now : Int)
    (iid lid : String) (o1 o2 : CallOracle),
    ((updateItemLocation s now iid lid o1 o2).2.2.length = 2 ↔
      (apiRequest s now o1).outcome = Except.error HbError.apiError) ∧
    (∀ v, (apiRequest s now o1).outcome = Except.ok v →
      (updateItemLocation s now iid lid o1 o2).1 = true ∧
      (updateItemLocation s now iid lid o1 o2).2.2 = [primaryBody lid]) ∧
    ((apiRequest s now o1).outcome = Except.error HbError.authError →
      (updateItemLocation s now iid lid o1 o2).1 = false ∧
      (updateItemLocation s now iid lid o1 o2).2.2 = [primaryBody lid]) ∧
    ((apiRequest s now o1).outcome = Except.error HbError.apiError →
      (updateItemLocation s now iid lid o1 o2).2.2 = [primaryBody lid, fallbackBody lid] ∧
      ((updateItemLocation s now iid lid o1 o2).1 = true ↔
        ∃ v, (apiRequest (apiRequest s now o1).state now o2).outcome = Except.ok v)) := by
  intro s now iid lid o1 o2
  cases h1 : (apiRequest s now o1).outcome with
  | ok v => simp [updateItemLocation, h1]
  | error e =>
    cases e with
    | authError => simp [updateItemLocation, h1]
    | apiError =>
      cases h2 : (apiRequest (apiRequest s now o1).state now o2).outcome with
      | ok w =>
        have hex : ∃ v, (apiRequest (apiRequest s now o1).state now o2).outcome
            = Except.ok v := ⟨w, h2⟩
        simp [updateItemLocation, h1, h2, hex]
      | error e2 => simp [updateItemLocation, h1, h2]

/-- Witness for C9: a primary `HomeboxApiError` (HTTP error status) followed
by a successful fallback. -/
theorem C9_update_item_location_witness :
    (updateItemLocation freshS 0 "item1" "loc1"
      ⟨[], [ServerResp.httpErr]⟩ ⟨[], [ServerResp.okJson Json.null]⟩).2.2
      = [primaryBody "loc1", fallbackBody "loc1"] ∧
    (updateItemLocation freshS 0 "item1" "loc1"
      ⟨[], [ServerResp.httpErr]⟩ ⟨[], [ServerResp.okJson Json.null]⟩).1 = true := by
  obtain ⟨ht, hb⟩ := (C9_update_item_location freshS 0 "item1" "loc1"
    ⟨[], [ServerResp.httpErr]⟩ ⟨[], [ServerResp.okJson Json.null]⟩).2.2.2 rfl
  exact ⟨ht, hb.mpr ⟨ApiValue.json Json.null, rfl⟩⟩

/-- C3 counterexample: in the state that is authenticated with a truthy
token but an absent `token_expiry` — a state the claim says returns true
with no `authenticate()` call — `ensure_token_valid` does call
`authenticate()` (and here returns its `false` result). -/
theorem C3_counterexample :
    noExpiryS.authenticated = true ∧
    optJsonFalsy noExpiryS.authToken = false ∧
    noExpiryS.tokenExpiry = none ∧
    (ensureTokenValid noExpiryS 0 [AuthResp.failure]).called = true ∧
    (ensureTokenValid noExpiryS 0 [AuthResp.failure]).ok = false :=
  ⟨rfl, rfl, rfl, rfl, rfl⟩

/-- C3 amended: `ensure_token_valid` returns true without calling
`authenticate` exactly when the client is authenticated, a truthy token
exists, and `token_expiry` is present with the current time more than 5
minutes before it (an absent expiry triggers re-authentication, not the
fast path); in every other state it calls `authenticate` exactly once and
returns that call's result. -/
theorem C3_ensure_token_valid : ∀ (s : ClientState) (now : Int) (au : List AuthResp),
    ((ensureTokenValid s now au).called = false ↔
      (s.authenticated = true ∧ optJsonFalsy s.authToken = false ∧
        ∃ e, s.tokenExpiry = some e ∧ now < e - 300)) ∧
    ((ensureTokenValid s now au).called = false → (ensureTokenValid s now au).ok = true) ∧
    ((ensureTokenValid s now au).called = true →
      (ensureTokenValid s now au).ok = (authenticate s now (au.headD AuthResp.failure)).1) := by
  intro s now au
  have hiff := needsRefresh_false_iff s now
  cases hn : needsRefresh s now with
  | false =>
    rw [ensureTokenValid_fresh s now au hn]
    exact ⟨iff_of_true rfl (hiff.mp hn), fun _ => rfl, fun hc => nomatch hc⟩
  | true =>
    have hcalled : (ensureTokenValid s now au).called = true := by
      unfold ensureTokenValid
      simp [hn]
    have hok : (ensureTokenValid s now au).ok
        = (authenticate s now (au.headD AuthResp.failure)).1 := by
      unfold ensureTokenValid
      simp [hn]
    refine ⟨?_, ?_, fun _ => hok⟩
    · rw [hcalled]
      exact iff_of_false (by simp)
        (fun hcond => absurd hn (by simp [hiff.mpr hcond]))
    · rw [hcalled]
      exact fun hc => nomatch hc

/-- Witness for the amended C3: a fresh valid token takes the fast path. -/
theorem C3_ensure_token_valid_witness :
    (ensureTokenValid freshS 0 []).called = false ∧
    (ensureTokenValid freshS 0 []).ok = true := by
  have h := C3_ensure_token_valid freshS 0 []
  have hc : (ensureTokenValid freshS 0 []).called = false :=
    h.1.mpr ⟨rfl, rfl, 1000000, rfl, by decide⟩
  exact ⟨hc, h.2.1 hc⟩

/-- Every state `authenticate` can produce satisfies the session invariant:
each failure path sets `authenticated = False`, and the success path stores
both a token and an expiry before setting `authenticated = True`. -/
theorem StateInv_authenticate (s : ClientState) (now : Int) (r : AuthResp) :
    StateInv (authenticate s now r).2 := by
  cases r with
  | failure => intro habs; simp [authenticate] at habs
  | success fields =>
    simp only [authenticate]
    rcases ht : extractToken fields with _ | v
    · intro habs; simp at habs
    · cases hsl : sliceable v with
      | false => intro habs; simp [hsl] at habs
      | true =>
        cases hfa : jsonFalsy v with
        | true => intro habs; simp [hsl, hfa] at habs
        | false =>
          rcases he : expiresResult fields now s.refreshInterval with e | _
          · intro _
            simp [hsl, hfa, he]
          · intro habs
            simp [hsl, hfa, he] at habs

/-- `ensure_token_valid` preserves the session invariant. -/
theorem StateInv_ensureTokenValid (s : ClientState) (now : Int) (au : List AuthResp)
    (h : StateInv s) : StateInv (ensureTokenValid s now au).state := by
  unfold ensureTokenValid
  by_cases hn : needsRefresh s now
  · have hA := StateInv_authenticate s now (au.headD AuthResp.failure)
    rcases hE : authenticate s now (au.headD AuthResp.failure) with ⟨b, s'⟩
    rw [hE] at hA
    simp [hn, hE]
    exact hA
  · simp [hn]
    exact h

/-- `api_request` preserves the session invariant: every state it can leave
behind is produced by `ensure_token_valid` or `authenticate`. -/
theorem StateInv_apiRequestGo (now : Int) : ∀ (resps : List ServerResp)
    (s : ClientState) (auths : List AuthResp),
    StateInv s → StateInv (apiRequestGo now s auths resps).state := by
  intro resps
  induction resps with
  | nil =>
    intro s auths h
    have hetv := StateInv_ensureTokenValid s now auths h
    simp only [apiRequestGo]
    split
    · exact hetv
    · split
      · exact hetv
      · exact hetv
  | cons head rest ih =>
    intro s auths h
    have hetv := StateInv_ensureTokenValid s now auths h
    cases head with
    | okJson v =>
      simp only [apiRequestGo]
      split
      · exact hetv
      · split
        · exact hetv
        · exact hetv
    | okText t =>
      simp only [apiRequestGo]
      split
      · exact hetv
      · split
        · exact hetv
        · exact hetv
    | httpErr =>
      simp only [apiRequestGo]
      split
      · exact hetv
      · split
        · exact hetv
        · exact hetv
    | netErr =>
      simp only [apiRequestGo]
      split
      · exact hetv
      · split
        · exact hetv
        · exact hetv
    | http401 =>
      simp only [apiRequestGo]
      split
      · exact hetv
      · split
        · exact hetv
        · have hA := StateInv_authenticate (ensureTokenValid s now auths).state now
            ((ensureTokenValid s now auths).rest.headD AuthResp.failure)
          rcases hE : authenticate (ensureTokenValid s now auths).state now
            ((ensureTokenValid s now auths).rest.headD AuthResp.failure) with ⟨ab, s2⟩
          rw [hE] at hA
          simp only [hE]
          cases ab with
          | true => exact ih s2 (ensureTokenValid s now auths).rest.tail hA
          | false => exact hA

/-- The state left by `get_items` is the state of its inner `api_request`. -/
theorem getItems_state (s : ClientState) (now : Int) (o : CallOracle) :
    (getItems s now o).2 = (apiRequest s now o).state := by
  unfold getItems
  rcases h : (apiRequest s now o).outcome with v | e <;> simp [h]

/-- The state left by `get_locations` is the state of its inner `api_request`. -/
theorem getLocations_state (s : ClientState) (now : Int) (o : CallOracle) :
    (getLocations s now o).2 = (apiRequest s now o).state := by
  unfold getLocations
  rcases h : (apiRequest s now o).outcome with v | e <;> simp [h]

/-- The state left by `create_location` is the state of its inner `api_request`. -/
theorem createLocation_state (s : ClientState) (now : Int) (nm : String) (o : CallOracle) :
    (createLocation s now nm o).2 = (apiRequest s now o).state := by
  unfold createLocation
  rcases h : (apiRequest s now o).outcome with v | e <;> simp [h]

/-- The `create_location` loop of `sync_locations` preserves the session
invariant. -/
theorem StateInv_createAll (now : Int) : ∀ (ns : List String) (s : ClientState)
    (os : List CallOracle), StateInv s → StateInv (createAll now s ns os) := by
  intro ns
  induction ns with
  | nil => intro s os h; exact h
  | cons n rest ih =>
    intro s os h
    refine ih _ _ ?_
    rw [createLocation_state]
    exact StateInv_apiRequestGo now _ s _ h

/-- `sync_locations` preserves the session invariant. -/
theorem StateInv_syncLocations (s : ClientState) (now : Int) (haAreas : Finset String)
    (locO : CallOracle) (crO : List CallOracle) (h : StateInv s) :
    StateInv (syncLocations s now haAreas locO crO).1 := by
  have hg : StateInv (getLocations s now locO).2 := by
    rw [getLocations_state]
    exact StateInv_apiRequestGo now _ s _ h
  unfold syncLocations
  dsimp only
  split
  · exact StateInv_createAll now _ _ _ hg
  · exact hg

/-- A coordinator refresh pass preserves the session invariant. -/
theorem StateInv_coordPass (s : ClientState) (now : Int) (ls : Option Int)
    (A : Finset String) (o : PassOracles) (h : StateInv s) :
    StateInv (coordPass s now ls A o).state := by
  have hetv := StateInv_ensureTokenValid s now o.etvAuth h
  unfold coordPass
  dsimp only
  split
  · exact hetv
  · have hs2 : StateInv (if syncDue ls now
        then (syncLocations (ensureTokenValid s now o.etvAuth).state now A o.syncLoc o.syncCreate).1
        else (ensureTokenValid s now o.etvAuth).state) := by
      split
      · exact StateInv_syncLocations _ now A o.syncLoc o.syncCreate hetv
      · exact hetv
    have hi : StateInv (getItems (if syncDue ls now
        then (syncLocations (ensureTokenValid s now o.etvAuth).state now A o.syncLoc o.syncCreate).1
        else (ensureTokenValid s now o.etvAuth).state) now o.items).2 := by
      rw [getItems_state]
      exact StateInv_apiRequestGo now _ _ _ hs2
    rw [getLocations_state]
    exact StateInv_apiRequestGo now _ _ _ hi

/-- Every reachable client state satisfies the session invariant. -/
theorem Reachable_StateInv : ∀ (s : ClientState), Reachable s → StateInv s := by
  intro s h
  induction h with
  | init interval => intro habs; simp [initState] at habs
  | auth s now r _ _ => exact StateInv_authenticate s now r
  | etv s now auths _ ih => exact StateInv_ensureTokenValid s now auths ih
  | api s now auths resps _ ih => exact StateInv_apiRequestGo now resps s auths ih
  | pass s now ls A o _ ih => exact StateInv_coordPass s now ls A o ih

/-- C10 counterexample: when the login response carries a non-empty JSON
list in its token field, `authenticate` returns true having stored that
list — a value that is not a string — as `auth_token` (the debug slice,
the truthiness check, and the default-expiry path all succeed on it). -/
theorem C10_counterexample :
    (authenticate (initState 60) 0 listTokenAuthResp).1 = true ∧
    (authenticate (initState 60) 0 listTokenAuthResp).2.authToken
      = some (Json.list [Json.str "x"]) ∧
    (((authenticate (initState 60) 0 listTokenAuthResp).2.authToken.getD
      Json.null).isStr = false) :=
  ⟨rfl, rfl, rfl⟩

/-- C10 amended: whenever `authenticate()` returns true it has stored a
truthy (non-empty) token value — a non-empty string whenever the server's
token field is a string — together with a concrete `token_expiry` and
`authenticated = true`; consequently, in every reachable client state,
`authenticated = true` implies both `auth_token` and `token_expiry` are
non-None. -/
theorem C10_authenticate_invariant :
    (∀ (s : ClientState) (now : Int) (r : AuthResp),
      (authenticate s now r).1 = true →
        optJsonFalsy (authenticate s now r).2.authToken = false ∧
        (authenticate s now r).2.tokenExpiry ≠ none ∧
        (authenticate s now r).2.authenticated = true) ∧
    (∀ (s : ClientState), Reachable s → s.authenticated = true →
      s.authToken ≠ none ∧ s.tokenExpiry ≠ none) := by
  constructor
  · intro s now r hres
    cases r with
    | failure => simp [authenticate] at hres
    | success fields =>
      simp only [authenticate] at hres ⊢
      revert hres
      rcases ht : extractToken fields with _ | v
      · intro hres; simp at hres
      · cases hsl : sliceable v with
        | false => intro hres; simp [hsl] at hres
        | true =>
          cases hfa : jsonFalsy v with
          | true => intro hres; simp [hsl, hfa] at hres
          | false =>
            rcases he : expiresResult fields now s.refreshInterval with e | _
            · intro _
              simp [hsl, hfa, he, optJsonFalsy]
            · intro hres
              simp [hsl, hfa, he] at hres
  · exact fun s h ha => Reachable_StateInv s h ha

/-- Witness for the amended C10 at a concrete login exchange. -/
theorem C10_authenticate_invariant_witness :
    (optJsonFalsy (authenticate (initState 60) 0 goodAuthResp).2.authToken = false ∧
      (authenticate (initState 60) 0 goodAuthResp).2.tokenExpiry ≠ none ∧
      (authenticate (initState 60) 0 goodAuthResp).2.authenticated = true) ∧
    ((authenticate (initState 60) 0 goodAuthResp).2.authToken ≠ none ∧
      (authenticate (initState 60) 0 goodAuthResp).2.tokenExpiry ≠ none) := by
  refine ⟨C10_authenticate_invariant.1 (initState 60) 0 goodAuthResp rfl, ?_⟩
  exact C10_authenticate_invariant.2 (authenticate (initState 60) 0 goodAuthResp).2
    (Reachable.auth (initState 60) 0 goodAuthResp (Reachable.init 60)) rfl

/-- Effect of `authenticate` on any state when the login answer carries a
string token and no expiry: the default expiry `now + refresh_interval` is
stored. -/
theorem authenticate_goodAuthResp (s : ClientState) (now : Int) :
    authenticate s now goodAuthResp =
      (true,
        { s with
          authToken := some (Json.str "t2"),
          tokenExpiry := some (now + s.refreshInterval * 60),
          lastRefresh := some now,
          authenticated := true }) := rfl

/-- A 401 answered by a failed re-authentication: the `HomeboxAuthError`
raised at src/auth_client.py line 198 is converted by the handler at line
213, so the call fails with `HomeboxApiError` after no retry and exactly
one re-authentication attempt. -/
theorem apiRequest_401_reauth_fail (s : ClientState) (now : Int)
    (h : needsRefresh s now = false) :
    apiRequestGo now s [AuthResp.failure] [ServerResp.http401] =
      { outcome := Except.error HbError.apiError,
        state := { s with authenticated := false }, retries := 0, reauths := 1 } := by
  have htok := ((needsRefresh_false_iff s now).mp h).2.1
  simp only [apiRequestGo]
  rw [ensureTokenValid_fresh s now _ h]
  simp [htok, authenticate]

/-- A 401 answered by a successful re-authentication: the request is retried
through the recursive call on the remaining script, whose raised errors are
converted to `HomeboxApiError` by the enclosing handler. -/
theorem apiRequest_401_reauth_ok (s : ClientState) (now : Int)
    (auths : List AuthResp) (rest : List ServerResp) (h : needsRefresh s now = false) :
    apiRequestGo now s (goodAuthResp :: auths) (ServerResp.http401 :: rest) =
      (let r := apiRequestGo now (authenticate s now goodAuthResp).2 auths rest
       { outcome := wrapNested r.outcome, state := r.state,
         retries := r.retries + 1, reauths := r.reauths + 1 }) := by
  have htok := ((needsRefresh_false_iff s now).mp h).2.1
  conv_lhs => rw [apiRequestGo]
  rw [ensureTokenValid_fresh s now _ h]
  simp [htok, authenticate_goodAuthResp]

/-- C1 counterexample: starting from a valid session, a server answering
401 twice (with re-authentication succeeding each time) makes `api_request`
retry twice and re-authenticate twice — the recursion at
src/auth_client.py line 196 does not bound retries to one — and a 401 whose
re-authentication fails makes `api_request` fail with `HomeboxApiError`,
not `HomeboxAuthError`. -/
theorem C1_counterexample :
    (apiRequestGo 0 freshS [goodAuthResp, goodAuthResp]
      [ServerResp.http401, ServerResp.http401, ServerResp.okJson Json.null]).retries = 2 ∧
    (apiRequestGo 0 freshS [goodAuthResp, goodAuthResp]
      [ServerResp.http401, ServerResp.http401, ServerResp.okJson Json.null]).reauths = 2 ∧
    (apiRequestGo 0 freshS [AuthResp.failure] [ServerResp.http401]).outcome
      = Except.error HbError.apiError :=
  ⟨rfl, rfl, rfl⟩

/-- C1 amended: on each 401 the invocation performs one re-authentication;
if it succeeds the request is retried via a recursive `api_request` call
that handles further 401s the same way, so `n` consecutive 401s with
successful re-authentications produce exactly `n` retries and `n`
re-authentication attempts before the final answer is returned (the retry
count is unbounded, not at most one); if a re-authentication fails, the
call performs no further retries and fails with `HomeboxApiError` (the
internally raised `HomeboxAuthError` is converted by the catch-all
handler), not `HomeboxAuthError`. -/
theorem C1_api_request_retry : ∀ (n : Nat) (s : ClientState) (now : Int) (v : Json),
    needsRefresh s now = false → 300 < s.refreshInterval * 60 →
    ((apiRequestGo now s (List.replicate n goodAuthResp)
        (List.replicate n ServerResp.http401 ++ [ServerResp.okJson v])).retries = n ∧
     (apiRequestGo now s (List.replicate n goodAuthResp)
        (List.replicate n ServerResp.http401 ++ [ServerResp.okJson v])).reauths = n ∧
     (apiRequestGo now s (List.replicate n goodAuthResp)
        (List.replicate n ServerResp.http401 ++ [ServerResp.okJson v])).outcome
        = Except.ok (ApiValue.json v)) ∧
    ((apiRequestGo now s [AuthResp.failure] [ServerResp.http401]).outcome
        = Except.error HbError.apiError ∧
     (apiRequestGo now s [AuthResp.failure] [ServerResp.http401]).retries = 0 ∧
     (apiRequestGo now s [AuthResp.failure] [ServerResp.http401]).reauths = 1) := by
  intro n
  induction n with
  | zero =>
    intro s now v h hi
    refine ⟨?_, ?_⟩
    · simp only [List.replicate, List.nil_append]
      rw [apiRequest_fresh_okJson s now [] v [] h]
      exact ⟨rfl, rfl, rfl⟩
    · rw [apiRequest_401_reauth_fail s now h]
      exact ⟨rfl, rfl, rfl⟩
  | succ n ih =>
    intro s now v h hi
    have hgood := authenticate_goodAuthResp s now
    have hs' : needsRefresh (authenticate s now goodAuthResp).2 now = false := by
      rw [hgood]
      exact (needsRefresh_false_iff _ now).mpr
        ⟨rfl, rfl, now + s.refreshInterval * 60, rfl, by omega⟩
    have hi' : 300 < (authenticate s now goodAuthResp).2.refreshInterval * 60 := by
      rw [hgood]; exact hi
    obtain ⟨ha, hb, hc⟩ := (ih (authenticate s now goodAuthResp).2 now v hs' hi').1
    refine ⟨?_, ?_⟩
    · have hstep := apiRequest_401_reauth_ok s now (List.replicate n goodAuthResp)
        (List.replicate n ServerResp.http401 ++ [ServerResp.okJson v]) h
      rw [show List.replicate (n + 1) goodAuthResp
            = goodAuthResp :: List.replicate n goodAuthResp from rfl,
          show List.replicate (n + 1) ServerResp.http401 ++ [ServerResp.okJson v]
            = ServerResp.http401
              :: (List.replicate n ServerResp.http401 ++ [ServerResp.okJson v]) from rfl,
          hstep]
      refine ⟨?_, ?_, ?_⟩
      · simpa using ha
      · simpa using hb
      · show wrapNested (apiRequestGo now (authenticate s now goodAuthResp).2
          (List.replicate n goodAuthResp)
          (List.replicate n ServerResp.http401 ++ [ServerResp.okJson v])).outcome
          = Except.ok (ApiValue.json v)
        rw [hc]
        rfl
    · rw [apiRequest_401_reauth_fail s now h]
      exact ⟨rfl, rfl, rfl⟩

/-- Witness for the amended C1: two consecutive 401s produce two retries,
and a failed re-authentication produces `HomeboxApiError`. -/
theorem C1_api_request_retry_witness :
    (apiRequestGo 0 freshS (List.replicate 2 goodAuthResp)
      (List.replicate 2 ServerResp.http401 ++ [ServerResp.okJson Json.null])).retries = 2 ∧
    (apiRequestGo 0 freshS [AuthResp.failure] [ServerResp.http401]).outcome
      = Except.error HbError.apiError := by
  have h := C1_api_request_retry 2 freshS 0 Json.null rfl (by decide)
  exact ⟨h.1.1, h.2.1⟩

/-- Name matching against a created location object is string equality. -/
theorem locNameMatches_mkNameLoc (a b : String) :
    locNameMatches a (mkNameLoc b) = decide (b = a) := rfl

/-- Membership in the set of names one sync pass creates. -/
theorem mem_syncCreates (A : Finset String) (locs : List Json) (a : String) :
    a ∈ syncCreates A locs ↔ a ∈ A ∧ locs.any (locNameMatches a) = false := by
  simp [syncCreates, Finset.mem_filter]

/-- A host area name matches some server location of the `{"name": n}` form
exactly when it occurs among those names. -/
theorem any_locNameMatches_map (names : List String) (a : String) :
    ((names.map mkNameLoc).any (locNameMatches a) = true) ↔ a ∈ names := by
  rw [List.any_eq_true]
  constructor
  · rintro ⟨b, hb, hmatch⟩
    obtain ⟨x, hx, rfl⟩ := List.mem_map.mp hb
    simp only [locNameMatches_mkNameLoc, decide_eq_true_eq] at hmatch
    rw [hmatch] at hx
    exact hx
  · intro ha
    exact ⟨mkNameLoc a, List.mem_map_of_mem _ ha, by simp [locNameMatches_mkNameLoc]⟩

/-- C8: one sync pass creates exactly the host-area names missing from the
server (the set difference of host areas and server location names), each
once, touching nothing else; and a second pass against a server that now
also lists the first pass's creations creates nothing. -/
theorem C8_sync_reconciliation : ∀ (A : Finset String) (names : List String)
    (s : ClientState) (now : Int) (au : List AuthResp) (crO : List CallOracle),
    needsRefresh s now = false →
    ((syncLocations s now A
        ⟨au, [ServerResp.okJson (Json.list (names.map mkNameLoc))]⟩ crO).2
       = syncCreates A (names.map mkNameLoc) ∧
     (∀ a, a ∈ syncCreates A (names.map mkNameLoc) ↔ (a ∈ A ∧ a ∉ names)) ∧
     syncCreates A (names.map mkNameLoc
        ++ ((syncCreates A (names.map mkNameLoc)).sort (· ≤ ·)).map mkNameLoc) = ∅) := by
  intro A names s now au crO h
  have hgl : getLocations s now
      ⟨au, [ServerResp.okJson (Json.list (names.map mkNameLoc))]⟩
      = (names.map mkNameLoc, s) := by
    unfold getLocations apiRequest
    rw [apiRequest_fresh_okJson s now au _ [] h]
    rfl
  have hobj : (names.map mkNameLoc).all Json.isObj = true := by
    simp [List.all_map, mkNameLoc, Json.isObj, Function.comp]
  refine ⟨?_, ?_, ?_⟩
  · unfold syncLocations
    rw [hgl]
    dsimp only
    rw [hobj]
    rfl
  · intro a
    rw [mem_syncCreates]
    constructor
    · rintro ⟨ha, hany⟩
      refine ⟨ha, fun hmem => ?_⟩
      rw [(any_locNameMatches_map names a).mpr hmem] at hany
      cases hany
    · rintro ⟨ha, hnot⟩
      refine ⟨ha, ?_⟩
      cases hany : (names.map mkNameLoc).any (locNameMatches a) with
      | false => rfl
      | true => exact absurd ((any_locNameMatches_map names a).mp hany) hnot
  · apply Finset.eq_empty_iff_forall_not_mem.mpr
    intro a hmem
    rw [mem_syncCreates] at hmem
    obtain ⟨ha, hany⟩ := hmem
    rw [List.any_append] at hany
    rw [Bool.or_eq_false_iff] at hany
    obtain ⟨hany1, hany2⟩ := hany
    have hacreated : a ∈ syncCreates A (names.map mkNameLoc) := by
      rw [mem_syncCreates]
      exact ⟨ha, hany1⟩
    have hsorted : a ∈ (syncCreates A (names.map mkNameLoc)).sort (· ≤ ·) :=
      (Finset.mem_sort (α := String) (· ≤ ·)).mpr hacreated
    have : (((syncCreates A (names.map mkNameLoc)).sort (· ≤ ·)).map mkNameLoc).any
        (locNameMatches a) = true :=
      (any_locNameMatches_map _ a).mpr hsorted
    rw [this] at hany2
    cases hany2

/-- Witness for C8 at the spec's example: host areas `{A, B, C}` against a
server knowing only `B` creates exactly `A` and `C`, and a second pass
creates nothing. -/
theorem C8_sync_reconciliation_witness :
    ("A" ∈ syncCreates areasABC (["B"].map mkNameLoc) ∧
     "B" ∉ syncCreates areasABC (["B"].map mkNameLoc) ∧
     "C" ∈ syncCreates areasABC (["B"].map mkNameLoc)) ∧
    syncCreates areasABC (["B"].map mkNameLoc
        ++ ((syncCreates areasABC (["B"].map mkNameLoc)).sort (· ≤ ·)).map mkNameLoc) = ∅ := by
  have h := C8_sync_reconciliation areasABC ["B"] freshS 0 [] [] rfl
  have h2 := h.2.1
  refine ⟨⟨(h2 "A").mpr ⟨by decide, by decide⟩, fun hmem => ?_,
    (h2 "C").mpr ⟨by decide, by decide⟩⟩, h.2.2⟩
  exact ((h2 "B").mp hmem).2 (by decide)

/-- A refresh pass runs the location sync exactly when the token check
passed and the sync gate is due. -/
theorem coordPass_syncRan (s : ClientState) (now : Int) (ls : Option Int)
    (A : Finset String) (o : PassOracles) :
    (coordPass s now ls A o).syncRan
      = ((ensureTokenValid s now o.etvAuth).ok && syncDue ls now) := by
  unfold coordPass
  dsimp only
  by_cases h : (ensureTokenValid s now o.etvAuth).ok = false
  · rw [if_pos h, h]
    rfl
  · have ht : (ensureTokenValid s now o.etvAuth).ok = true := by
      cases hx : (ensureTokenValid s now o.etvAuth).ok
      · exact absurd hx h
      · rfl
    rw [if_neg h, ht]
    simp

/-- The stored `last_sync_time` after a pass: advanced to `now` exactly when
the sync ran, otherwise unchanged. -/
theorem coordPass_lastSync (s : ClientState) (now : Int) (ls : Option Int)
    (A : Finset String) (o : PassOracles) :
    (coordPass s now ls A o).lastSync
      = (if ((ensureTokenValid s now o.etvAuth).ok && syncDue ls now) = true
         then some now else ls) := by
  unfold coordPass
  dsimp only
  by_cases h : (ensureTokenValid s now o.etvAuth).ok = false
  · rw [if_pos h, h]
    simp
  · have ht : (ensureTokenValid s now o.etvAuth).ok = true := by
      cases hx : (ensureTokenValid s now o.etvAuth).ok
      · exact absurd hx h
      · rfl
    rw [if_neg h, ht]
    simp

/-- C2 counterexample: a failed `ensure_token_valid` makes the pass raise
`UpdateFailed` — the generic data-fetch failure, not an auth-typed one —
and a failing mandatory items fetch (the request's `api_request` raises
`HomeboxApiError`, shown in the third conjunct) is swallowed into a
successful snapshot with an empty items list. -/
theorem C2_counterexample :
    (coordPass (initState 60) 0 none ∅ emptyPassOracles).result
      = CoordResult.updateFailed ∧
    (coordPass (initState 60) 0 none ∅ emptyPassOracles).result
      ≠ CoordResult.authFailed ∧
    (apiRequest freshS 0 ⟨[], [ServerResp.netErr]⟩).outcome
      = Except.error HbError.apiError ∧
    (coordPass freshS 0 (some 0) ∅
      { etvAuth := [], syncLoc := emptyCallOracle, syncCreate := [],
        items := ⟨[], [ServerResp.netErr]⟩,
        locations := ⟨[], [ServerResp.okJson (Json.list [Json.obj []])]⟩ }).result
      = CoordResult.snapshot [] [Json.obj []] := by
  refine ⟨rfl, ?_, rfl, rfl⟩
  intro hc
  exact CoordResult.noConfusion hc

/-- C2 amended: when `ensure_token_valid` returns false the pass fails with
`UpdateFailed` (src/__init__.py line 284) — the same generic type used for
data-fetch failures, not a `ConfigEntryAuthFailed`; when it returns true
the pass always returns a snapshot, because the client methods swallow
their own API errors into empty lists, so no pass ever raises
`ConfigEntryAuthFailed` and no fetch failure surfaces as a typed error. -/
theorem C2_coordinator_failure_modes : ∀ (s : ClientState) (now : Int)
    (ls : Option Int) (A : Finset String) (o : PassOracles),
    ((ensureTokenValid s now o.etvAuth).ok = false →
      (coordPass s now ls A o).result = CoordResult.updateFailed) ∧
    ((coordPass s now ls A o).result ≠ CoordResult.authFailed) ∧
    ((ensureTokenValid s now o.etvAuth).ok = true →
      ∃ its locs, (coordPass s now ls A o).result = CoordResult.snapshot its locs) := by
  intro s now ls A o
  unfold coordPass
  dsimp only
  by_cases h : (ensureTokenValid s now o.etvAuth).ok = false
  · rw [if_pos h]
    have hnt : ¬((ensureTokenValid s now o.etvAuth).ok = true) := by
      rw [h]
      exact fun hc => Bool.noConfusion hc
    refine ⟨fun _ => rfl, ?_, fun h2 => absurd h2 hnt⟩
    intro hc
    exact CoordResult.noConfusion hc
  · rw [if_neg h]
    refine ⟨fun h2 => absurd h2 h, ?_, fun _ => ⟨_, _, rfl⟩⟩
    intro hc
    exact CoordResult.noConfusion hc

/-- Witness for the amended C2: an unauthenticated client with an
unreachable server fails with `UpdateFailed`; a valid client returns a
snapshot. -/
theorem C2_coordinator_failure_modes_witness :
    (coordPass (initState 60) 100 none ∅ emptyPassOracles).result
      = CoordResult.updateFailed ∧
    ∃ its locs, (coordPass freshS 0 (some 0) ∅ emptyPassOracles).result
      = CoordResult.snapshot its locs := by
  have h1 := C2_coordinator_failure_modes (initState 60) 100 none ∅ emptyPassOracles
  have h2 := C2_coordinator_failure_modes freshS 0 (some 0) ∅ emptyPassOracles
  exact ⟨h1.1 rfl, h2.2.2 rfl⟩

/-- C4 counterexample: a pass in which every sync-internal network call
fails — the server-location fetch degrades to an empty list, the creation
call returns false, the underlying `api_request` raises `HomeboxApiError`
(conjuncts three to five evaluate those operations at the very state and
scripts the pass uses) — still advances `last_sync_time` from absent to the
pass time, because `sync_locations` reports no failure to its caller and
src/__init__.py line 292 runs unconditionally after it. -/
theorem C4_counterexample :
    (coordPass freshS 0 none {"A"} emptyPassOracles).syncRan = true ∧
    (coordPass freshS 0 none {"A"} emptyPassOracles).lastSync = some 0 ∧
    (getLocations freshS 0 emptyCallOracle).1 = [] ∧
    (createLocation freshS 0 "A" emptyCallOracle).1 = false ∧
    (apiRequest freshS 0 emptyCallOracle).outcome = Except.error HbError.apiError :=
  ⟨rfl, rfl, rfl, rfl, rfl⟩

/-- C4 amended: `last_sync_time` starts absent and is advanced to the pass
time whenever a refresh pass runs the location sync — that is, whenever the
token check passes and the gate is due — regardless of whether the sync's
own operations succeeded (`sync_locations` swallows all its failures); when
the sync does not run, `last_sync_time` is unchanged. -/
theorem C4_last_sync_advance :
    initLastSyncTime = none ∧
    ∀ (s : ClientState) (now : Int) (ls : Option Int) (A : Finset String)
      (o : PassOracles),
    ((coordPass s now ls A o).syncRan
       = ((ensureTokenValid s now o.etvAuth).ok && syncDue ls now)) ∧
    ((coordPass s now ls A o).syncRan = true →
      (coordPass s now ls A o).lastSync = some now) ∧
    ((coordPass s now ls A o).syncRan = false →
      (coordPass s now ls A o).lastSync = ls) := by
  refine ⟨rfl, fun s now ls A o => ⟨coordPass_syncRan s now ls A o, ?_, ?_⟩⟩
  · intro h
    rw [coordPass_syncRan s now ls A o] at h
    rw [coordPass_lastSync s now ls A o, h]
    rfl
  · intro h
    rw [coordPass_syncRan s now ls A o] at h
    rw [coordPass_lastSync s now ls A o, h]
    rfl

/-- Witness for the amended C4: a pass with a recent sync time leaves it
unchanged, and a pass with no recorded sync time sets it to the pass time. -/
theorem C4_last_sync_advance_witness :
    (coordPass freshS 0 (some 0) ∅ emptyPassOracles).lastSync = some 0 ∧
    (coordPass freshS 5 none ∅ emptyPassOracles).lastSync = some 5 := by
  have h1 := (C4_last_sync_advance.2 freshS 0 (some 0) ∅ emptyPassOracles).2.2
  have h2 := (C4_last_sync_advance.2 freshS 5 none ∅ emptyPassOracles).2.1
  exact ⟨h1 rfl, h2 rfl⟩

/-- C7: across two consecutive refresh passes within 24 hours of each
other, the location sync runs at most once (a sync in the first pass
records its time, which closes the gate for the second); and a pass whose
recorded sync time lies more than 24 hours in the past, with a passing
token check, runs the sync again. -/
theorem C7_sync_once_per_day : ∀ (s : ClientState) (t1 t2 : Int)
    (ls : Option Int) (A : Finset String) (o1 o2 : PassOracles),
    (t2 - t1 ≤ 86400 →
      ¬((coordPass s t1 ls A o1).syncRan = true ∧
        (coordPass (coordPass s t1 ls A o1).state t2
          (coordPass s t1 ls A o1).lastSync A o2).syncRan = true)) ∧
    (∀ u, ls = some u → 86400 < t1 - u →
      (ensureTokenValid s t1 o1.etvAuth).ok = true →
      (coordPass s t1 ls A o1).syncRan = true) := by
  intro s t1 t2 ls A o1 o2
  constructor
  · rintro hle ⟨h1, h2⟩
    have hls : (coordPass s t1 ls A o1).lastSync = some t1 := by
      rw [coordPass_lastSync s t1 ls A o1, coordPass_syncRan s t1 ls A o1] at *
      rw [h1]
      rfl
    rw [coordPass_syncRan, hls] at h2
    have hdue : syncDue (some t1) t2 = false := by
      simp only [syncDue, decide_eq_false_iff_not, not_lt]
      omega
    rw [hdue, Bool.and_false] at h2
    cases h2
  · intro u hu hgap hok
    rw [coordPass_syncRan, hok, hu]
    simp only [syncDue, Bool.true_and, decide_eq_true_eq]
    omega

/-- Witness for C7: two passes 100 seconds apart sync at most once, and a
pass 100000 seconds after the recorded sync runs it again. -/
theorem C7_sync_once_per_day_witness :
    (¬((coordPass freshS 0 none ∅ emptyPassOracles).syncRan = true ∧
      (coordPass (coordPass freshS 0 none ∅ emptyPassOracles).state 100
        (coordPass freshS 0 none ∅ emptyPassOracles).lastSync ∅
        emptyPassOracles).syncRan = true)) ∧
    (coordPass freshS 100000 (some 0) ∅ emptyPassOracles).syncRan = true := by
  have h := C7_sync_once_per_day freshS 0 100 none ∅ emptyPassOracles emptyPassOracles
  have h2 := C7_sync_once_per_day freshS 100000 0 (some 0) ∅ emptyPassOracles emptyPassOracles
  exact ⟨h.1 (by decide), h2.2 0 rfl (by decide) rfl⟩
